import Mathlib

/-!
Shallow embedding of `drivers/gpu/drm/panel/panel-raspberrypi-touchscreen.c`:
the Raspberry Pi 7" touchscreen DRM panel driver.  The lifecycle callbacks
(`rpi_touchscreen_disable` / `unprepare` / `prepare` / `enable`), the mode
enumeration (`rpi_touchscreen_get_modes` over the static table
`rpi_touchscreen_modes`), the backlight status update
(`rpi_touchscreen_backlight_update`), and the probe path
(`rpi_touchscreen_get_i2c` / `rpi_touchscreen_dsi_probe`) are translated into
pure Lean functions over explicit state.  C `int` return values become `Int`
(0 is success, negative errno values are failures); the driver state
`struct rpi_touchscreen` becomes a structure holding the `prepared` and
`enabled` flags and the optional backlight collaborator.
-/

namespace RpiTouchscreenDriver

/-! ### Constants from the kernel headers used by the driver -/

/-- Constant `FB_BLANK_UNBLANK` from `include/linux/fb.h`: backlight power "on". -/
def FB_BLANK_UNBLANK : Nat := 0

/-- Constant `FB_BLANK_POWERDOWN` from `include/linux/fb.h`: backlight powered down. -/
def FB_BLANK_POWERDOWN : Nat := 4

/-- Constant `BL_CORE_SUSPENDED` from `include/linux/backlight.h` (bit 0). -/
def BL_CORE_SUSPENDED : Nat := 1

/-- Constant `BL_CORE_FBBLANK` from `include/linux/backlight.h` (bit 1). -/
def BL_CORE_FBBLANK : Nat := 2

/-- Constant `DRM_MODE_TYPE_PREFERRED` from `include/uapi/drm/drm_mode.h` (bit 3). -/
def DRM_MODE_TYPE_PREFERRED : Nat := 8

/-- Constant `DRM_MODE_TYPE_DRIVER` from `include/uapi/drm/drm_mode.h` (bit 6). -/
def DRM_MODE_TYPE_DRIVER : Nat := 64

/-- errno `ENODEV`. -/
def ENODEV : Int := 19

/-- errno `ENOMEM`. -/
def ENOMEM : Int := 12

/-- errno `EPROBE_DEFER`. -/
def EPROBE_DEFER : Int := 517

/-! ### Backlight collaborator state -/

/-- Type `struct backlight_properties`: the fields the driver reads or writes
(`power`, `brightness`, `state`). -/
structure BacklightProps where
  power : Nat
  brightness : Int
  state : Nat
  deriving Repr, DecidableEq

/-- A backlight device as seen by the driver: its properties, plus an
instrumentation counter recording how many `backlight_update_status`
(status-refresh) requests have been issued against it. -/
structure BacklightDevice where
  props : BacklightProps
  updateCalls : Nat
  deriving Repr, DecidableEq

/-- Function `rpi_touchscreen_backlight_update`: reads `props.brightness` into a local,
collapses it to 0 when power is not `FB_BLANK_UNBLANK` or the
suspended/fbblank state bits are set, and then returns 0 without storing the
local anywhere.  The state-returning pair makes the absence of writeback
explicit. -/
def rpi_touchscreen_backlight_update (bl : BacklightDevice) : Int × BacklightDevice :=
  let brightness : Int := bl.props.brightness
  let brightness : Int :=
    if bl.props.power ≠ FB_BLANK_UNBLANK ∨
        bl.props.state &&& (BL_CORE_SUSPENDED ||| BL_CORE_FBBLANK) ≠ 0 then 0
    else brightness
  let _ := brightness
  (0, bl)

/-- The effective brightness computed (into the local variable) by
`rpi_touchscreen_backlight_update`. -/
def rpi_touchscreen_backlight_effective (props : BacklightProps) : Int :=
  if props.power ≠ FB_BLANK_UNBLANK ∨
      props.state &&& (BL_CORE_SUSPENDED ||| BL_CORE_FBBLANK) ≠ 0 then 0
  else props.brightness

/-- Kernel helper `backlight_update_status`: dispatches to the device's
`update_status` operation — here `rpi_touchscreen_backlight_update` — and
records that a status-refresh request was issued. -/
def backlight_update_status (bl : BacklightDevice) : BacklightDevice :=
  let bl := (rpi_touchscreen_backlight_update bl).2
  { bl with updateCalls := bl.updateCalls + 1 }

/-! ### Panel state and lifecycle callbacks -/

/-- Type `struct rpi_touchscreen`: the fields driven by the lifecycle callbacks.
The `dsi`, `bridge_i2c` and `atmel_ver` fields are not touched by any
lifecycle operation and are omitted here (the probe path is modelled
separately below). -/
structure RpiTouchscreen where
  backlight : Option BacklightDevice
  prepared : Bool
  enabled : Bool
  deriving Repr, DecidableEq

/-- Function `rpi_touchscreen_disable`: early-returns 0 when not enabled; otherwise,
if a backlight is attached, sets its power to `FB_BLANK_POWERDOWN` and calls
`backlight_update_status`; clears `enabled`; returns 0. -/
def rpi_touchscreen_disable (ts : RpiTouchscreen) : Int × RpiTouchscreen :=
  if ts.enabled = false then (0, ts)
  else
    let ts :=
      match ts.backlight with
      | some bl =>
          let bl := { bl with props := { bl.props with power := FB_BLANK_POWERDOWN } }
          { ts with backlight := some (backlight_update_status bl) }
      | none => ts
    (0, { ts with enabled := false })

/-- Function `rpi_touchscreen_unprepare`: early-returns 0 when not prepared; otherwise
clears `prepared`; returns 0. -/
def rpi_touchscreen_unprepare (ts : RpiTouchscreen) : Int × RpiTouchscreen :=
  if ts.prepared = false then (0, ts)
  else (0, { ts with prepared := false })

/-- Function `rpi_touchscreen_prepare`: early-returns 0 when already prepared;
otherwise sets `prepared`; returns 0. -/
def rpi_touchscreen_prepare (ts : RpiTouchscreen) : Int × RpiTouchscreen :=
  if ts.prepared = true then (0, ts)
  else (0, { ts with prepared := true })

/-- Function `rpi_touchscreen_enable`: early-returns 0 when already enabled; otherwise,
if a backlight is attached, sets its power to `FB_BLANK_UNBLANK` and calls
`backlight_update_status`; sets `enabled`; returns 0. -/
def rpi_touchscreen_enable (ts : RpiTouchscreen) : Int × RpiTouchscreen :=
  if ts.enabled = true then (0, ts)
  else
    let ts :=
      match ts.backlight with
      | some bl =>
          let bl := { bl with props := { bl.props with power := FB_BLANK_UNBLANK } }
          { ts with backlight := some (backlight_update_status bl) }
      | none => ts
    (0, { ts with enabled := true })

/-! ### Lifecycle call sequences -/

/-- The four lifecycle operations exposed through `rpi_touchscreen_funcs`. -/
inductive PanelOp where
  | prepare
  | enable
  | disable
  | unprepare
  deriving Repr, DecidableEq

/-- Apply one lifecycle operation and keep the resulting state. -/
def applyOp (ts : RpiTouchscreen) : PanelOp → RpiTouchscreen
  | PanelOp.prepare => (rpi_touchscreen_prepare ts).2
  | PanelOp.enable => (rpi_touchscreen_enable ts).2
  | PanelOp.disable => (rpi_touchscreen_disable ts).2
  | PanelOp.unprepare => (rpi_touchscreen_unprepare ts).2

/-- Run a sequence of lifecycle operations. -/
def runOps (ts : RpiTouchscreen) (ops : List PanelOp) : RpiTouchscreen :=
  ops.foldl applyOp ts

/-- The initial state of a freshly probed panel: `devm_kzalloc` zeroes the
structure, so `prepared = false` and `enabled = false`. -/
def initPanel (bl : Option BacklightDevice) : RpiTouchscreen :=
  { backlight := bl, prepared := false, enabled := false }

/-- The spec's invariant, as a boolean: `enabled` implies `prepared`. -/
def invariantB (ts : RpiTouchscreen) : Bool :=
  !ts.enabled || ts.prepared

/-- A call sequence respects the DRM panel ordering contract from state `ts`:
`enable` is only invoked on a prepared panel and `unprepare` only on a
disabled panel. -/
def orderedFromB (ts : RpiTouchscreen) : List PanelOp → Bool
  | [] => true
  | op :: rest =>
      (op != PanelOp.enable || ts.prepared) &&
      (op != PanelOp.unprepare || !ts.enabled) &&
      orderedFromB (applyOp ts op) rest

/-- The invariant holds after every call of the sequence. -/
def invariantAfterEachB (ts : RpiTouchscreen) : List PanelOp → Bool
  | [] => true
  | op :: rest => invariantB (applyOp ts op) && invariantAfterEachB (applyOp ts op) rest

/-! ### Mode enumeration -/

/-- Type `struct drm_display_mode`: the timing fields the driver fills in the
static table, plus the `type` flag bitfield set during `get_modes`.  (The
mode name written by `drm_mode_set_name` is derived presentation data and is
not modelled.) -/
structure drm_display_mode where
  clock : Nat
  hdisplay : Nat
  hsync_start : Nat
  hsync_end : Nat
  htotal : Nat
  vdisplay : Nat
  vsync_start : Nat
  vsync_end : Nat
  vtotal : Nat
  vrefresh : Nat
  type : Nat
  deriving Repr, DecidableEq

/-- The static table `rpi_touchscreen_modes[]`: exactly one entry, the
800x480 timing.  `type` starts at 0 (designated initializers zero it). -/
def rpi_touchscreen_modes : List drm_display_mode :=
  [{ clock := 83333,
     hdisplay := 800,
     hsync_start := 800 + 61,
     hsync_end := 800 + 61 + 2,
     htotal := 800 + 61 + 2 + 44,
     vdisplay := 480,
     vsync_start := 480 + 7,
     vsync_end := 480 + 7 + 2,
     vtotal := 480 + 7 + 2 + 21,
     vrefresh := 60,
     type := 0 }]

/-- Type `struct drm_display_info`: the three fields the driver writes. -/
structure drm_display_info where
  bpc : Nat
  width_mm : Nat
  height_mm : Nat
  deriving Repr, DecidableEq

/-- The connector state touched by `get_modes`: the probed-mode list that
`drm_mode_probed_add` appends to, and the display info. -/
structure drm_connector where
  probed_modes : List drm_display_mode
  display_info : drm_display_info
  deriving Repr, DecidableEq

/-- The loop body of `rpi_touchscreen_get_modes`, generic over the table it
walks (the C loop is generic via `ARRAY_SIZE`).  `dup_ok i` models whether
`drm_mode_duplicate` succeeds for the entry at index `i` (it returns NULL on
allocation failure, upon which the loop logs and `continue`s).  On success
the duplicate gets `DRM_MODE_TYPE_DRIVER` or-ed into `type`, the entry at
index 0 additionally gets `DRM_MODE_TYPE_PREFERRED`, the mode is added to the
probed list, and `num` is incremented.  Returns the final `num` together with
the modes added. -/
def get_modes_loop (dup_ok : Nat → Bool) : Nat → List drm_display_mode → Nat × List drm_display_mode
  | _, [] => (0, [])
  | i, m :: rest =>
      let r := get_modes_loop dup_ok (i + 1) rest
      if dup_ok i then
        let mode := { m with type := m.type ||| DRM_MODE_TYPE_DRIVER }
        let mode :=
          if i = 0 then { mode with type := mode.type ||| DRM_MODE_TYPE_PREFERRED }
          else mode
        (r.1 + 1, mode :: r.2)
      else
        r

/-- Function `rpi_touchscreen_get_modes`: walks `rpi_touchscreen_modes`, duplicating
each entry into the connector's probed list (skipping entries whose
duplication fails), then sets the connector's display info to bpc 8,
217mm x 136mm, and returns the number of modes produced. -/
def rpi_touchscreen_get_modes (dup_ok : Nat → Bool) (connector : drm_connector) :
    Int × drm_connector :=
  let r := get_modes_loop dup_ok 0 rpi_touchscreen_modes
  (Int.ofNat r.1,
   { probed_modes := connector.probed_modes ++ r.2,
     display_info := { bpc := 8, width_mm := 217, height_mm := 136 } })

/-! ### Probe path: bridge device lookup and construction -/

/-- The result of `rpi_touchscreen_get_i2c` as a kernel pointer value: a NULL
pointer, an `ERR_PTR` encoding a negative errno, or a valid `i2c_client`
handle. -/
inductive I2cPtr where
  | null
  | err (e : Int)
  | client (h : Nat)
  deriving Repr, DecidableEq

/-- The collaborators the probe consults, as oracles: whether
`of_parse_phandle` resolves the `"raspberrypi,touchscreen-bridge"` phandle,
what `of_find_i2c_device_by_node` returns (NULL when the I2C device is not
yet registered), whether `devm_kzalloc` succeeds, and the return values of
`drm_panel_add` and `mipi_dsi_attach`. -/
structure ProbeEnv where
  phandle_present : Bool
  i2c_device : Option Nat
  alloc_ok : Bool
  panel_add_ret : Int
  dsi_attach_ret : Int
  deriving Repr, DecidableEq

/-- Function `rpi_touchscreen_get_i2c`: returns `ERR_PTR(-ENODEV)` when the phandle
does not parse; otherwise returns whatever `of_find_i2c_device_by_node`
yields (the found client, or NULL when the device is not registered yet). -/
def rpi_touchscreen_get_i2c (env : ProbeEnv) : I2cPtr :=
  if env.phandle_present = false then I2cPtr.err (-ENODEV)
  else
    match env.i2c_device with
    | none => I2cPtr.null
    | some h => I2cPtr.client h

/-- Function `rpi_touchscreen_dsi_probe`, reduced to its control flow on return
values: fails with `-ENOMEM` when allocation fails; stores the bridge lookup
result and returns `-EPROBE_DEFER` only when that result is NULL (the C test
is `if (!ts->bridge_i2c)`, which an `ERR_PTR` passes); then propagates a
negative `drm_panel_add` result, and otherwise returns `mipi_dsi_attach`'s
result. -/
def rpi_touchscreen_dsi_probe (env : ProbeEnv) : Int :=
  if env.alloc_ok = false then -ENOMEM
  else
    let bridge_i2c := rpi_touchscreen_get_i2c env
    if bridge_i2c = I2cPtr.null then -EPROBE_DEFER
    else if env.panel_add_ret < 0 then env.panel_add_ret
    else env.dsi_attach_ret

/-! ### Concrete states used as test inputs -/

/-- A connector before `get_modes` runs: no probed modes, zeroed info. -/
def emptyConnector : drm_connector :=
  { probed_modes := [], display_info := { bpc := 0, width_mm := 0, height_mm := 0 } }

/-- A concrete backlight device: powered down, brightness 200, no requests
issued yet. -/
def blEx : BacklightDevice :=
  { props := { power := FB_BLANK_POWERDOWN, brightness := 200, state := 0 },
    updateCalls := 0 }

/-- A prepared, not-yet-enabled panel with `blEx` attached. -/
def tsWithBl : RpiTouchscreen :=
  { backlight := some blEx, prepared := true, enabled := false }

/-- A probe environment whose device tree lacks the bridge phandle. -/
def envMissingPhandle : ProbeEnv :=
  { phandle_present := false, i2c_device := none, alloc_ok := true,
    panel_add_ret := 0, dsi_attach_ret := 0 }

/-- A probe environment where the phandle resolves but the bridge I2C device
is not registered yet. -/
def envDeferred : ProbeEnv :=
  { phandle_present := true, i2c_device := none, alloc_ok := true,
    panel_add_ret := 0, dsi_attach_ret := 0 }

/-- A probe environment where the bridge I2C device is available and the
registration collaborators succeed. -/
def envReady : ProbeEnv :=
  { phandle_present := true, i2c_device := some 1, alloc_ok := true,
    panel_add_ret := 0, dsi_attach_ret := 0 }

/-- Backlight properties: power on, brightness 200, no state bits. -/
def pOn : BacklightProps :=
  { power := FB_BLANK_UNBLANK, brightness := 200, state := 0 }

/-- Backlight properties: powered down, brightness 200. -/
def pOff : BacklightProps :=
  { power := FB_BLANK_POWERDOWN, brightness := 200, state := 0 }

/-- Backlight properties: power on but the suspended state bit set. -/
def pSusp : BacklightProps :=
  { power := FB_BLANK_UNBLANK, brightness := 200, state := BL_CORE_SUSPENDED }

/-- A panel with both flags set (prepared and enabled). -/
def tsOn : RpiTouchscreen := { backlight := none, prepared := true, enabled := true }

/-- A panel with both flags clear (the initial state, no backlight). -/
def tsOff : RpiTouchscreen := { backlight := none, prepared := false, enabled := false }

/-! ### Helper lemmas -/

/-- Unfolding `backlight_update_status`: the panel's `update_status`
callback leaves the properties untouched, so only the request counter
moves. -/
theorem backlight_update_status_eq (bl : BacklightDevice) :
    backlight_update_status bl = { bl with updateCalls := bl.updateCalls + 1 } := rfl

/-- Effect of `rpi_touchscreen_prepare` on the two flags. -/
theorem prepare_flags (ts : RpiTouchscreen) :
    (rpi_touchscreen_prepare ts).2.prepared = true ∧
    (rpi_touchscreen_prepare ts).2.enabled = ts.enabled := by
  unfold rpi_touchscreen_prepare
  by_cases h : ts.prepared = true <;> simp [h]

/-- Effect of `rpi_touchscreen_enable` on the two flags. -/
theorem enable_flags (ts : RpiTouchscreen) :
    (rpi_touchscreen_enable ts).2.enabled = true ∧
    (rpi_touchscreen_enable ts).2.prepared = ts.prepared := by
  unfold rpi_touchscreen_enable
  by_cases h : ts.enabled = true <;>
    rcases hb : ts.backlight with _ | bl <;> simp [h, hb]

/-- Effect of `rpi_touchscreen_disable` on the two flags. -/
theorem disable_flags (ts : RpiTouchscreen) :
    (rpi_touchscreen_disable ts).2.enabled = false ∧
    (rpi_touchscreen_disable ts).2.prepared = ts.prepared := by
  unfold rpi_touchscreen_disable
  by_cases h : ts.enabled = false <;>
    rcases hb : ts.backlight with _ | bl <;> simp [h, hb]

/-- Effect of `rpi_touchscreen_unprepare` on the two flags. -/
theorem unprepare_flags (ts : RpiTouchscreen) :
    (rpi_touchscreen_unprepare ts).2.prepared = false ∧
    (rpi_touchscreen_unprepare ts).2.enabled = ts.enabled := by
  unfold rpi_touchscreen_unprepare
  by_cases h : ts.prepared = false <;> simp [h]

/-- Under the caller ordering contract, the `enabled ⇒ prepared` invariant
holds after every call of the sequence, from any starting state. -/
theorem invariant_of_ordered (ops : List PanelOp) (ts : RpiTouchscreen)
    (hord : orderedFromB ts ops = true) :
    invariantAfterEachB ts ops = true := by
  induction ops generalizing ts with
  | nil => simp [invariantAfterEachB]
  | cons op rest ih =>
    rw [orderedFromB, Bool.and_eq_true, Bool.and_eq_true] at hord
    obtain ⟨⟨h1, h2⟩, h3⟩ := hord
    have hstep : invariantB (applyOp ts op) = true := by
      cases op with
      | prepare =>
          rw [invariantB, applyOp, (prepare_flags ts).1]
          simp
      | enable =>
          have hp : ts.prepared = true := by simpa using h1
          rw [invariantB, applyOp, (enable_flags ts).2, hp]
          simp
      | disable =>
          rw [invariantB, applyOp, (disable_flags ts).1]
          simp
      | unprepare =>
          have he : ts.enabled = false := by simpa using h2
          rw [invariantB, applyOp, (unprepare_flags ts).2, he]
          simp
    rw [invariantAfterEachB, Bool.and_eq_true]
    exact ⟨hstep, ih (applyOp ts op) h3⟩

/-! ### Claims -/

/-- C1 (counterexample): the operations themselves do not enforce the
invariant.  From the initial state, a single `Enable` call yields
`enabled = true` with `prepared = false`, violating `enabled ⇒ prepared`
after that call. -/
theorem C1_counterexample :
    (runOps (initPanel none) [PanelOp.enable]).enabled = true ∧
    (runOps (initPanel none) [PanelOp.enable]).prepared = false := by decide

/-- C1 (amended): for every starting backlight and every sequence of the four
lifecycle operations that respects the caller ordering contract (Enable only
on a prepared panel, Unprepare only on a disabled panel), the invariant
`enabled ⇒ prepared` holds after every call, starting from the initial state
`prepared = false, enabled = false`. -/
theorem C1_ordered_sequences_keep_invariant (bl : Option BacklightDevice)
    (ops : List PanelOp) (hord : orderedFromB (initPanel bl) ops = true) :
    invariantAfterEachB (initPanel bl) ops = true :=
  invariant_of_ordered ops (initPanel bl) hord

/-- C1 witness: the full ordered cycle Prepare, Enable, Disable, Unprepare
satisfies the ordering contract and keeps the invariant throughout. -/
theorem C1_ordered_sequences_keep_invariant_witness :
    orderedFromB (initPanel none)
      [PanelOp.prepare, PanelOp.enable, PanelOp.disable, PanelOp.unprepare] = true ∧
    invariantAfterEachB (initPanel none)
      [PanelOp.prepare, PanelOp.enable, PanelOp.disable, PanelOp.unprepare] = true :=
  ⟨by decide, C1_ordered_sequences_keep_invariant none _ (by decide)⟩

/-- C2: each lifecycle operation, invoked when the panel is already in its
target state, returns 0 and leaves the whole state (flags and backlight)
unchanged; moreover calling Prepare twice equals calling it once — it leaves
`prepared = true` and never touches the backlight. -/
theorem C2_lifecycle_idempotent (ts : RpiTouchscreen) :
    (ts.prepared = true → rpi_touchscreen_prepare ts = (0, ts)) ∧
    (ts.enabled = true → rpi_touchscreen_enable ts = (0, ts)) ∧
    (ts.enabled = false → rpi_touchscreen_disable ts = (0, ts)) ∧
    (ts.prepared = false → rpi_touchscreen_unprepare ts = (0, ts)) ∧
    rpi_touchscreen_prepare (rpi_touchscreen_prepare ts).2 =
      (0, (rpi_touchscreen_prepare ts).2) ∧
    (rpi_touchscreen_prepare ts).2.prepared = true ∧
    (rpi_touchscreen_prepare ts).2.backlight = ts.backlight := by
  refine ⟨?_, ?_, ?_, ?_, ?_, (prepare_flags ts).1, ?_⟩
  · intro h; simp [rpi_touchscreen_prepare, h]
  · intro h; simp [rpi_touchscreen_enable, h]
  · intro h; simp [rpi_touchscreen_disable, h]
  · intro h; simp [rpi_touchscreen_unprepare, h]
  · have hp := (prepare_flags ts).1
    conv_lhs => rw [rpi_touchscreen_prepare]
    rw [if_pos hp]
  · unfold rpi_touchscreen_prepare
    by_cases h : ts.prepared = true <;> simp [h]

/-- C2 witness: at a concrete already-prepared/enabled panel and a concrete
already-disabled/unprepared panel, each operation returns 0 and changes
nothing. -/
theorem C2_lifecycle_idempotent_witness :
    rpi_touchscreen_prepare tsOn = (0, tsOn) ∧
    rpi_touchscreen_enable tsOn = (0, tsOn) ∧
    rpi_touchscreen_disable tsOff = (0, tsOff) ∧
    rpi_touchscreen_unprepare tsOff = (0, tsOff) :=
  ⟨(C2_lifecycle_idempotent tsOn).1 rfl,
   (C2_lifecycle_idempotent tsOn).2.1 rfl,
   (C2_lifecycle_idempotent tsOff).2.2.1 rfl,
   (C2_lifecycle_idempotent tsOff).2.2.2.1 rfl⟩

/-- C7: every lifecycle operation returns 0 (success) from every panel
state; none of them can return an error value. -/
theorem C7_lifecycle_infallible (ts : RpiTouchscreen) :
    (rpi_touchscreen_prepare ts).1 = 0 ∧
    (rpi_touchscreen_enable ts).1 = 0 ∧
    (rpi_touchscreen_disable ts).1 = 0 ∧
    (rpi_touchscreen_unprepare ts).1 = 0 := by
  refine ⟨?_, ?_, ?_, ?_⟩
  · unfold rpi_touchscreen_prepare
    by_cases h : ts.prepared = true <;> simp [h]
  · unfold rpi_touchscreen_enable
    by_cases h : ts.enabled = true <;>
      rcases hb : ts.backlight with _ | bl <;> simp [h, hb]
  · unfold rpi_touchscreen_disable
    by_cases h : ts.enabled = false <;>
      rcases hb : ts.backlight with _ | bl <;> simp [h, hb]
  · unfold rpi_touchscreen_unprepare
    by_cases h : ts.prepared = false <;> simp [h]

/-- C3: Enable on a not-enabled panel returns 0, sets `enabled = true`,
leaves `prepared` alone, and — exactly when a backlight is attached — sets
the backlight power to `FB_BLANK_UNBLANK` (leaving brightness and state
untouched) and issues one status-refresh request; with no backlight attached
the backlight state stays `none`. -/
theorem C3_enable_effect (ts : RpiTouchscreen) (h : ts.enabled = false) :
    (rpi_touchscreen_enable ts).1 = 0 ∧
    (rpi_touchscreen_enable ts).2.enabled = true ∧
    (rpi_touchscreen_enable ts).2.prepared = ts.prepared ∧
    (∀ bl : BacklightDevice, ts.backlight = some bl →
      (rpi_touchscreen_enable ts).2.backlight =
        some { props := { bl.props with power := FB_BLANK_UNBLANK },
               updateCalls := bl.updateCalls + 1 }) ∧
    (ts.backlight = none → (rpi_touchscreen_enable ts).2.backlight = none) := by
  rcases hb : ts.backlight with _ | bl <;>
    simp [rpi_touchscreen_enable, h, hb, backlight_update_status_eq]

/-- C3 witness: enabling the concrete prepared panel with the powered-down
backlight attached returns 0, enables the panel, turns the backlight power
on and issues one refresh request. -/
theorem C3_enable_effect_witness :
    (rpi_touchscreen_enable tsWithBl).1 = 0 ∧
    (rpi_touchscreen_enable tsWithBl).2.enabled = true ∧
    (rpi_touchscreen_enable tsWithBl).2.backlight =
      some { props := { power := FB_BLANK_UNBLANK, brightness := 200, state := 0 },
             updateCalls := 1 } :=
  ⟨(C3_enable_effect tsWithBl rfl).1,
   (C3_enable_effect tsWithBl rfl).2.1,
   (C3_enable_effect tsWithBl rfl).2.2.2.1 blEx rfl⟩

/-- C4: from every panel state with a backlight attached, Enable followed
immediately by Disable leaves `enabled = false` and the backlight power at
`FB_BLANK_POWERDOWN`. -/
theorem C4_enable_then_disable (ts : RpiTouchscreen) (bl : BacklightDevice)
    (h : ts.backlight = some bl) :
    (rpi_touchscreen_disable (rpi_touchscreen_enable ts).2).2.enabled = false ∧
    ((rpi_touchscreen_disable (rpi_touchscreen_enable ts).2).2.backlight.map
      fun b => b.props.power) = some FB_BLANK_POWERDOWN := by
  obtain ⟨tb, tp, te⟩ := ts
  simp only at h
  subst h
  cases te <;>
    simp [rpi_touchscreen_enable, rpi_touchscreen_disable, backlight_update_status_eq]

/-- C4 witness: on the concrete panel with a backlight, Enable then Disable
ends disabled with the backlight powered down. -/
theorem C4_enable_then_disable_witness :
    (rpi_touchscreen_disable (rpi_touchscreen_enable tsWithBl).2).2.enabled = false ∧
    ((rpi_touchscreen_disable (rpi_touchscreen_enable tsWithBl).2).2.backlight.map
      fun b => b.props.power) = some FB_BLANK_POWERDOWN :=
  C4_enable_then_disable tsWithBl blEx rfl

/-- C5: with every duplication succeeding, `get_modes` over the one-entry
static table returns 1, produces exactly one probed mode, that mode carries
both the preferred and the driver-supplied type flags, and the display info
is set to bpc 8, 217mm x 136mm. -/
theorem C5_single_mode_query :
    (rpi_touchscreen_get_modes (fun _ => true) emptyConnector).1 = 1 ∧
    (rpi_touchscreen_get_modes (fun _ => true) emptyConnector).2.probed_modes.length = 1 ∧
    ((rpi_touchscreen_get_modes (fun _ => true) emptyConnector).2.probed_modes.all fun m =>
      (m.type &&& DRM_MODE_TYPE_PREFERRED != 0) && (m.type &&& DRM_MODE_TYPE_DRIVER != 0)) = true ∧
    (rpi_touchscreen_get_modes (fun _ => true) emptyConnector).2.display_info =
      { bpc := 8, width_mm := 217, height_mm := 136 } := by decide

/-- C6: the enumeration loop is tolerant of per-entry duplication failure:
for every table, every failure pattern and every start index, the count it
returns is exactly the number of table indices whose duplication succeeds
(so a failing entry is skipped while all later entries are still attempted),
and the list of modes it adds has exactly that length. -/
theorem C6_enumeration_skips_failures (dup_ok : Nat → Bool) (i : Nat)
    (table : List drm_display_mode) :
    (get_modes_loop dup_ok i table).1 =
      ((table.enumFrom i).filter fun p => dup_ok p.1).length ∧
    (get_modes_loop dup_ok i table).2.length = (get_modes_loop dup_ok i table).1 := by
  induction table generalizing i with
  | nil => simp [get_modes_loop, List.enumFrom]
  | cons m rest ih =>
    have h := ih (i + 1)
    by_cases hd : dup_ok i = true <;>
      simp [get_modes_loop, List.enumFrom, List.filter_cons, hd, h.1, h.2]

/-- C8 (counterexample): when the bridge phandle is absent, the lookup does
not resolve to a device handle — it yields `ERR_PTR(-ENODEV)` — yet the
probe does not fail with `-EPROBE_DEFER`: the NULL test passes the error
pointer and construction proceeds to report success. -/
theorem C8_counterexample :
    rpi_touchscreen_get_i2c envMissingPhandle = I2cPtr.err (-ENODEV) ∧
    rpi_touchscreen_dsi_probe envMissingPhandle = 0 ∧
    (0 : Int) ≠ -EPROBE_DEFER := by decide

/-- C8 (amended): construction fails with `-EPROBE_DEFER` exactly in the
lookup's NULL case — the phandle resolves but the bridge I2C device is not
yet registered — and a later attempt, once the device is available and the
allocation/registration collaborators succeed, returns 0.  When the phandle
itself is absent the lookup returns an `ERR_PTR` which the probe's NULL test
does not treat as failure. -/
theorem C8_defer_on_null_lookup (env retryEnv : ProbeEnv)
    (halloc : env.alloc_ok = true) (hph : env.phandle_present = true)
    (hdev : env.i2c_device = none)
    (h2alloc : retryEnv.alloc_ok = true) (h2ph : retryEnv.phandle_present = true)
    (h2dev : retryEnv.i2c_device.isSome = true)
    (h2add : retryEnv.panel_add_ret = 0) (h2att : retryEnv.dsi_attach_ret = 0) :
    rpi_touchscreen_dsi_probe env = -EPROBE_DEFER ∧
    rpi_touchscreen_dsi_probe retryEnv = 0 := by
  constructor
  · simp [rpi_touchscreen_dsi_probe, rpi_touchscreen_get_i2c, halloc, hph, hdev]
  · rcases hsome : retryEnv.i2c_device with _ | hdl
    · rw [hsome] at h2dev; simp at h2dev
    · simp [rpi_touchscreen_dsi_probe, rpi_touchscreen_get_i2c, h2alloc, h2ph,
        hsome, h2add, h2att]

/-- C8 witness: the concrete environment with an unregistered bridge defers,
and the concrete environment with the bridge available succeeds. -/
theorem C8_defer_on_null_lookup_witness :
    rpi_touchscreen_dsi_probe envDeferred = -EPROBE_DEFER ∧
    rpi_touchscreen_dsi_probe envReady = 0 :=
  C8_defer_on_null_lookup envDeferred envReady rfl rfl rfl rfl rfl rfl rfl rfl

/-- C9: the recomputed effective brightness is a pure function of the
backlight properties: it equals the requested brightness when power is
`FB_BLANK_UNBLANK` and neither the suspended nor the fbblank state bit is
set, and collapses to 0 otherwise. -/
theorem C9_effective_brightness (props : BacklightProps) :
    (props.power = FB_BLANK_UNBLANK ∧
        props.state &&& (BL_CORE_SUSPENDED ||| BL_CORE_FBBLANK) = 0 →
      rpi_touchscreen_backlight_effective props = props.brightness) ∧
    (props.power ≠ FB_BLANK_UNBLANK ∨
        props.state &&& (BL_CORE_SUSPENDED ||| BL_CORE_FBBLANK) ≠ 0 →
      rpi_touchscreen_backlight_effective props = 0) := by
  constructor
  · rintro ⟨h1, h2⟩
    unfold rpi_touchscreen_backlight_effective
    rw [if_neg]
    push_neg
    exact ⟨h1, h2⟩
  · intro h
    unfold rpi_touchscreen_backlight_effective
    rw [if_pos h]

/-- C9 witness: brightness 200 with power on and no state bits yields 200;
powered down yields 0; suspended yields 0. -/
theorem C9_effective_brightness_witness :
    rpi_touchscreen_backlight_effective pOn = 200 ∧
    rpi_touchscreen_backlight_effective pOff = 0 ∧
    rpi_touchscreen_backlight_effective pSusp = 0 :=
  ⟨(C9_effective_brightness pOn).1 (by decide),
   (C9_effective_brightness pOff).2 (by decide),
   (C9_effective_brightness pSusp).2 (by decide)⟩

/-- C10: for every backlight state, the status-update callback returns 0 and
leaves the device unchanged — the effective brightness it computes stays in
a local and is neither written back nor returned. -/
theorem C10_backlight_update_returns_zero (bl : BacklightDevice) :
    rpi_touchscreen_backlight_update bl = (0, bl) := rfl

end RpiTouchscreenDriver
